import Mathlib

/-!
Shallow embedding of the two AWS Lambda handlers of this repository:

* `src/producer/lambda_function.py` — validates an HTTP-style request body and
  submits a message envelope to an SQS queue;
* `src/consumer/lambda_function.py` — processes a batch of SQS records,
  enriches each with metadata and publishes each to an SNS topic.

JSON values are modelled by the inductive type `JVal`; Python operations that
can raise (`in` on a non-container, subscripting, `.get` on a non-dict,
slicing) are modelled by `Except String` computations whose error strings
stand for `str(e)` of the raised exception.  The external service calls
(`sqs.send_message`, `sns.publish`) are passed in as function parameters
returning `Except String`, so that both the submitted payloads and downstream
failures are observable in theorems.
-/

namespace EventApp

/-- A JSON value as produced by Python `json.loads`: `null`, booleans,
numbers (modelled as integers; no claim involves fractional numbers),
strings, arrays and objects (association lists of string keys, in insertion
order, as Python dicts preserve). -/
inductive JVal where
  | null : JVal
  | bool : Bool → JVal
  | num : Int → JVal
  | str : String → JVal
  | arr : List JVal → JVal
  | obj : List (String × JVal) → JVal

/-- The single-quote character, used by Python `repr` of strings. -/
def sq : Char := Char.ofNat 39

/-- The double-quote character. -/
def dq : Char := Char.ofNat 34

/-- Escape the backslash and the given quote character, as Python `repr`
does inside a quoted string (finer escaping of control characters is not
modelled; no value in any claim contains them). -/
def pyEscape (quote : Char) (s : String) : String :=
  s.foldl
    (fun acc c =>
      if c = Char.ofNat 92 then acc ++ "\\\\"
      else if c = quote then (acc.push (Char.ofNat 92)).push quote
      else acc.push c) ""

/-- Python `repr` of a string: single quotes by default; double quotes when
the string contains a single quote but no double quote. -/
def pyQuote (s : String) : String :=
  if s.contains sq && !(s.contains dq) then
    (String.singleton dq) ++ pyEscape dq s ++ (String.singleton dq)
  else
    (String.singleton sq) ++ pyEscape sq s ++ (String.singleton sq)

mutual

/-- Python `str()` of a JSON value, as used by f-string interpolation:
`str` values render verbatim, scalars render as Python prints them, and
containers render via `repr` of their elements. -/
def pyStr : JVal → String
  | JVal.null => "None"
  | JVal.bool true => "True"
  | JVal.bool false => "False"
  | JVal.num n => toString n
  | JVal.str s => s
  | JVal.arr xs => "[" ++ pyReprList xs ++ "]"
  | JVal.obj fs => "\x7b" ++ pyReprFields fs ++ "\x7d"

/-- Python `repr()` of a JSON value (strings get quoted). -/
def pyRepr : JVal → String
  | JVal.null => "None"
  | JVal.bool true => "True"
  | JVal.bool false => "False"
  | JVal.num n => toString n
  | JVal.str s => pyQuote s
  | JVal.arr xs => "[" ++ pyReprList xs ++ "]"
  | JVal.obj fs => "\x7b" ++ pyReprFields fs ++ "\x7d"

/-- Comma-separated `repr` of list elements. -/
def pyReprList : List JVal → String
  | [] => ""
  | [x] => pyRepr x
  | x :: xs => pyRepr x ++ ", " ++ pyReprList xs

/-- Comma-separated `repr` of dict entries. -/
def pyReprFields : List (String × JVal) → String
  | [] => ""
  | [kv] => pyQuote kv.1 ++ ": " ++ pyRepr kv.2
  | kv :: xs => pyQuote kv.1 ++ ": " ++ pyRepr kv.2 ++ ", " ++ pyReprFields xs

end

/-- Python `k in v` for a string `k`: key membership on dicts, substring
test on strings, element equality on lists; raises `TypeError` on
non-containers.  Equality of a string with a non-string element is `False`
in Python, hence the pattern match in the list case. -/
def pyContains (k : String) : JVal → Except String Bool
  | JVal.obj fields => Except.ok (fields.lookup k).isSome
  | JVal.str s => Except.ok (decide ((s.splitOn k).length > 1))
  | JVal.arr xs =>
      Except.ok (xs.any (fun v => match v with
        | JVal.str s => s == k
        | _ => false))
  | JVal.null => Except.error "TypeError: argument of type NoneType is not iterable"
  | JVal.bool _ => Except.error "TypeError: argument of type bool is not iterable"
  | JVal.num _ => Except.error "TypeError: argument of type int is not iterable"

/-- Python `v[k]` for a string key `k`: dict lookup (raising `KeyError`
when absent); strings and lists reject string indices; other values are not
subscriptable. -/
def pyIndex (v : JVal) (k : String) : Except String JVal :=
  match v with
  | JVal.obj fields =>
      match fields.lookup k with
      | some x => Except.ok x
      | none => Except.error ("KeyError: " ++ k)
  | JVal.str _ => Except.error "TypeError: string indices must be integers"
  | JVal.arr _ => Except.error "TypeError: list indices must be integers or slices, not str"
  | JVal.null => Except.error "TypeError: NoneType object is not subscriptable"
  | JVal.bool _ => Except.error "TypeError: bool object is not subscriptable"
  | JVal.num _ => Except.error "TypeError: int object is not subscriptable"

/-- Python `v.get(k, dflt)`: only dicts have the `.get` attribute; every
other value raises `AttributeError`. -/
def pyGet (v : JVal) (k : String) (dflt : JVal) : Except String JVal :=
  match v with
  | JVal.obj fields => Except.ok ((fields.lookup k).getD dflt)
  | JVal.null => Except.error "AttributeError: NoneType object has no attribute get"
  | JVal.bool _ => Except.error "AttributeError: bool object has no attribute get"
  | JVal.num _ => Except.error "AttributeError: int object has no attribute get"
  | JVal.str _ => Except.error "AttributeError: str object has no attribute get"
  | JVal.arr _ => Except.error "AttributeError: list object has no attribute get"

/-- Python `v[:50]`: defined on strings and lists, a `TypeError` on every
other value. -/
def pySlice50 : JVal → Except String JVal
  | JVal.str s => Except.ok (JVal.str (s.take 50))
  | JVal.arr xs => Except.ok (JVal.arr (xs.take 50))
  | JVal.null => Except.error "TypeError: NoneType object is not subscriptable"
  | JVal.bool _ => Except.error "TypeError: bool object is not subscriptable"
  | JVal.num _ => Except.error "TypeError: int object is not subscriptable"
  | JVal.obj _ => Except.error "TypeError: unhashable type: slice"

/-- Whether Python slicing `v[:50]` succeeds on the value. -/
def supportsSlice : JVal → Bool
  | JVal.str _ => true
  | JVal.arr _ => true
  | _ => false

/-- The statement `if key in body: payload[outKey] = body[key]`, appearing
in both handlers (producer lines 97–100, consumer lines 97–101): appends
`(outKey, body[key])` to the payload when `key` is in `body`; a raised
exception (non-container `body`) propagates. -/
def addOptField (body : JVal) (key outKey : String)
    (payload : List (String × JVal)) : Except String (List (String × JVal)) :=
  match pyContains key body with
  | Except.error e => Except.error e
  | Except.ok false => Except.ok payload
  | Except.ok true =>
      match pyIndex body key with
      | Except.error e => Except.error e
      | Except.ok v => Except.ok (payload ++ [(outKey, v)])

/-!  ## Producer (`src/producer/lambda_function.py`)  -/

/-- Outcome of the body-extraction step of the producer handler:
either `body` was absent from the event, or `json.loads(event[...])`
raised `JSONDecodeError`, or it returned a JSON value. -/
inductive BodyParse where
  | absent : BodyParse
  | malformed : BodyParse
  | parsed : JVal → BodyParse

/-- An API-Gateway-shaped response.  The `body` field holds the object that
the source passes to `json.dumps`; the serialization boundary is modelled at
the structured level. -/
structure HttpResponse where
  statusCode : Nat
  headers : List (String × String)
  body : List (String × JVal)

/-- The headers attached to every producer response. -/
def corsHeaders : List (String × String) :=
  [("Content-Type", "application/json"), ("Access-Control-Allow-Origin", "*")]

/-- A producer error response: given status code and error text, the
response whose body is the object with single key `error`. -/
def errorResponse (code : Nat) (msg : String) : HttpResponse :=
  { statusCode := code
    headers := corsHeaders
    body := [("error", JVal.str msg)] }

namespace Producer

/-- The body of the producer `try` block after JSON parsing succeeded
(lines 76–131 of the source): validate the `message` field, build the
message payload, copy optional fields, submit to SQS and shape the 200
response.  `rid` models `context.aws_request_id`, `ts` models
`datetime.utcnow().isoformat()`, and `send` models
`sqs.send_message(QueueUrl=..., MessageBody=json.dumps(payload), ...)`,
returning the queue message id or raising.  Besides the response, the
result carries the submitted payload when a submission was made.  A raised
exception propagates to the caller (the outer `except` of the handler). -/
def handlerCore (body : JVal) (rid ts : String)
    (send : List (String × JVal) → Except String String) :
    Except String (HttpResponse × Option (List (String × JVal))) :=
  match pyContains "message" body with
  | Except.error e => Except.error e
  | Except.ok false =>
      Except.ok (errorResponse 400 "Missing required field: message", none)
  | Except.ok true =>
      match pyIndex body "message" with
      | Except.error e => Except.error e
      | Except.ok msgVal =>
          let base : List (String × JVal) :=
            [("message", msgVal), ("timestamp", JVal.str ts),
             ("request_id", JVal.str rid), ("source", JVal.str "api-gateway")]
          match addOptField body "priority" "priority" base with
          | Except.error e => Except.error e
          | Except.ok withPriority =>
              match addOptField body "category" "category" withPriority with
              | Except.error e => Except.error e
              | Except.ok message_payload =>
                  match send message_payload with
                  | Except.error e => Except.error e
                  | Except.ok mid =>
                      Except.ok
                        ({ statusCode := 200
                           headers := corsHeaders
                           body := [("message", JVal.str "Message sent successfully"),
                                    ("message_id", JVal.str mid),
                                    ("timestamp", JVal.str ts)] },
                         some message_payload)

/-- The producer `lambda_handler`: dispatch on the body-extraction outcome
(`json.JSONDecodeError` is answered inline with a 400; an absent `body` key
yields the empty dict), then run the validated path; any exception raised
there is caught by the outer `except` and collapsed to a generic 500. -/
def lambda_handler (parse : BodyParse) (rid ts : String)
    (send : List (String × JVal) → Except String String) :
    HttpResponse × Option (List (String × JVal)) :=
  match parse with
  | BodyParse.malformed => (errorResponse 400 "Invalid JSON in request body", none)
  | BodyParse.absent =>
      match handlerCore (JVal.obj []) rid ts send with
      | Except.ok r => r
      | Except.error _ => (errorResponse 500 "Internal server error", none)
  | BodyParse.parsed body =>
      match handlerCore body rid ts send with
      | Except.ok r => r
      | Except.error _ => (errorResponse 500 "Internal server error", none)

end Producer

/-!  ## Consumer (`src/consumer/lambda_function.py`)  -/

/-- One SQS record of the consumer event: the queue-assigned `messageId`
and the outcome of `json.loads(record[...])` on its body — the decoded
value, or the `str(e)` of the raised `JSONDecodeError`. -/
structure ConsRecord where
  messageId : String
  body : Except String JVal

/-- The three-variant SNS payload built by `publish_to_sns` (source lines
121–125): the `default` form is `json.dumps(message)`, modelled at the
structured level; `email` and `sms` are the rendered f-strings. -/
structure SnsMessage where
  defaultForm : List (String × JVal)
  email : String
  sms : String

namespace Consumer

/-- The function `process_message`: wrap the decoded body with processing metadata.
`now` models `datetime.utcnow().isoformat()`.  The optional-field checks
run Python `in` on the decoded body, which raises on non-container
bodies; that exception propagates to the per-item handler. -/
def process_message (message_body : JVal) (message_id : String) (now : String) :
    Except String (List (String × JVal)) :=
  let base : List (String × JVal) :=
    [("original_message", message_body), ("processed_at", JVal.str now),
     ("message_id", JVal.str message_id),
     ("processor", JVal.str "consumer-lambda"), ("version", JVal.str "1.0")]
  match addOptField message_body "priority" "priority_level" base with
  | Except.error e => Except.error e
  | Except.ok withPriority =>
      match addOptField message_body "category" "category" withPriority with
      | Except.error e => Except.error e
      | Except.ok withCategory =>
          Except.ok (withCategory ++ [("processing_status", JVal.str "completed")])

/-- The `sns_message` dict literal of `publish_to_sns` (source lines
121–125), evaluated in source order: the `email` form renders
`message.get(original_message, ...).get(message, ...)` through an f-string,
the `sms` form renders the same value sliced to 50 characters followed by
an ellipsis; either `.get` chain or the slice can raise. -/
def build_sns_message (message : List (String × JVal)) : Except String SnsMessage :=
  match pyGet (JVal.obj message) "original_message" (JVal.obj []) with
  | Except.error e => Except.error e
  | Except.ok om1 =>
      match pyGet om1 "message" (JVal.str "No message") with
      | Except.error e => Except.error e
      | Except.ok emailVal =>
          match pyGet (JVal.obj message) "original_message" (JVal.obj []) with
          | Except.error e => Except.error e
          | Except.ok om2 =>
              match pyGet om2 "message" (JVal.str "No message") with
              | Except.error e => Except.error e
              | Except.ok smsVal =>
                  match pySlice50 smsVal with
                  | Except.error e => Except.error e
                  | Except.ok sliced =>
                      Except.ok
                        { defaultForm := message
                          email := "Message processed: " ++ pyStr emailVal
                          sms := "Processed: " ++ pyStr sliced ++ "..." }

/-- The function `publish_to_sns`: build the three-variant payload, read
`message[...]` for the `ProcessingTime` attribute, and call `sns.publish`
(modelled by the `publish` parameter, returning the SNS message id or
raising).  Any exception is re-raised to the per-item handler. -/
def publish_to_sns
    (publish : SnsMessage → List (String × String) → Except String String)
    (message : List (String × JVal)) (message_id : String) :
    Except String String :=
  match build_sns_message message with
  | Except.error e => Except.error e
  | Except.ok sns_message =>
      match pyIndex (JVal.obj message) "processed_at" with
      | Except.error e => Except.error e
      | Except.ok pt =>
          publish sns_message
            [("MessageId", message_id), ("ProcessingTime", pyStr pt)]

/-- The per-record body of the consumer loop (source lines 34–53): decode
the body, process, publish; the result is the SNS message id, or the
`str(e)` of whichever step raised. -/
def processRecord (now : String)
    (publish : SnsMessage → List (String × String) → Except String String)
    (record : ConsRecord) : Except String String :=
  match record.body with
  | Except.error e => Except.error e
  | Except.ok message_body =>
      match process_message message_body record.messageId now with
      | Except.error e => Except.error e
      | Except.ok processed =>
          publish_to_sns publish processed record.messageId

/-- The entry appended to `processed_messages` for a successful record. -/
def mkProcessedEntry (message_id sns_message_id : String) : List (String × JVal) :=
  [("message_id", JVal.str message_id),
   ("sns_message_id", JVal.str sns_message_id),
   ("status", JVal.str "success")]

/-- The entry appended to `failed_messages` for a failed record. -/
def mkFailedEntry (message_id err : String) : List (String × JVal) :=
  [("message_id", JVal.str message_id),
   ("error", JVal.str err),
   ("status", JVal.str "failed")]

/-- One iteration of the consumer loop: run the record and append the
corresponding entry to one of the two accumulators. -/
def loopStep (now : String)
    (publish : SnsMessage → List (String × String) → Except String String)
    (acc : List (List (String × JVal)) × List (List (String × JVal)))
    (record : ConsRecord) :
    List (List (String × JVal)) × List (List (String × JVal)) :=
  match processRecord now publish record with
  | Except.ok snsId => (acc.1 ++ [mkProcessedEntry record.messageId snsId], acc.2)
  | Except.error e => (acc.1, acc.2 ++ [mkFailedEntry record.messageId e])

/-- The response body of the consumer handler (the object passed to
`json.dumps` in the 200 response). -/
structure ConsumerResponse where
  statusCode : Nat
  processed_count : Nat
  failed_count : Nat
  processed_messages : List (List (String × JVal))
  failed_messages : List (List (String × JVal))

/-- The consumer `lambda_handler`: fold the per-record loop over the batch
in delivery order, then shape the 200 response with the two tallies. -/
def lambda_handler (now : String)
    (publish : SnsMessage → List (String × String) → Except String String)
    (records : List ConsRecord) : ConsumerResponse :=
  let acc := records.foldl (loopStep now publish) ([], [])
  { statusCode := 200
    processed_count := acc.1.length
    failed_count := acc.2.length
    processed_messages := acc.1
    failed_messages := acc.2 }

/-- The `processed_messages` entry a record contributes, when it succeeds. -/
def succEntry (now : String)
    (publish : SnsMessage → List (String × String) → Except String String)
    (record : ConsRecord) : Option (List (String × JVal)) :=
  match processRecord now publish record with
  | Except.ok snsId => some (mkProcessedEntry record.messageId snsId)
  | Except.error _ => none

/-- The `failed_messages` entry a record contributes, when it fails. -/
def failEntry (now : String)
    (publish : SnsMessage → List (String × String) → Except String String)
    (record : ConsRecord) : Option (List (String × JVal)) :=
  match processRecord now publish record with
  | Except.ok _ => none
  | Except.error e => some (mkFailedEntry record.messageId e)

end Consumer

/-!  ## Helper lemmas  -/

/-- On a decoded object, `addOptField` never raises and appends the looked
up entry exactly when the key is present. -/
theorem addOptField_obj (fields : List (String × JVal)) (key outKey : String)
    (payload : List (String × JVal)) :
    addOptField (JVal.obj fields) key outKey payload
      = Except.ok (payload ++
          (match fields.lookup key with
           | some v => [(outKey, v)]
           | none => [])) := by
  cases h : fields.lookup key <;> simp [addOptField, pyContains, pyIndex, h]

namespace Producer

/-- The message payload the producer submits for a body that decoded to the
object `fields` whose `message` value is `v`. -/
def envelope (fields : List (String × JVal)) (v : JVal) (rid ts : String) :
    List (String × JVal) :=
  ([("message", v), ("timestamp", JVal.str ts), ("request_id", JVal.str rid),
    ("source", JVal.str "api-gateway")]
   ++ (match fields.lookup "priority" with
       | some vp => [("priority", vp)]
       | none => []))
  ++ (match fields.lookup "category" with
      | some vc => [("category", vc)]
      | none => [])

/-- On a decoded object body containing `message`, the validated path of the
producer submits exactly `envelope` and succeeds or fails with the queue
call. -/
theorem handlerCore_obj (fields : List (String × JVal)) (v : JVal)
    (rid ts : String) (send : List (String × JVal) → Except String String)
    (hmsg : fields.lookup "message" = some v) :
    handlerCore (JVal.obj fields) rid ts send
      = match send (envelope fields v rid ts) with
        | Except.error e => Except.error e
        | Except.ok mid =>
            Except.ok
              ({ statusCode := 200
                 headers := corsHeaders
                 body := [("message", JVal.str "Message sent successfully"),
                          ("message_id", JVal.str mid),
                          ("timestamp", JVal.str ts)] },
               some (envelope fields v rid ts)) := by
  simp only [handlerCore, pyContains, pyIndex, hmsg, Option.isSome_some,
    addOptField_obj, envelope]

end Producer

namespace Consumer

/-- The consumer loop is the pair of filterMaps of the per-record
contribution functions, appended to the initial accumulators. -/
theorem foldl_loopStep (now : String)
    (publish : SnsMessage → List (String × String) → Except String String)
    (records : List ConsRecord)
    (p f : List (List (String × JVal))) :
    records.foldl (loopStep now publish) (p, f)
      = (p ++ records.filterMap (succEntry now publish),
         f ++ records.filterMap (failEntry now publish)) := by
  induction records generalizing p f with
  | nil => simp
  | cons r rs ih =>
    simp only [List.foldl_cons, List.filterMap_cons]
    cases h : processRecord now publish r with
    | ok s => simp [loopStep, succEntry, failEntry, h, ih]
    | error e => simp [loopStep, succEntry, failEntry, h, ih]

/-- Each record contributes exactly one entry across the two lists. -/
theorem filterMap_entries_length (now : String)
    (publish : SnsMessage → List (String × String) → Except String String)
    (records : List ConsRecord) :
    (records.filterMap (succEntry now publish)).length
      + (records.filterMap (failEntry now publish)).length = records.length := by
  induction records with
  | nil => rfl
  | cons r rs ih =>
    simp only [List.filterMap_cons]
    cases h : processRecord now publish r <;>
      simp [succEntry, failEntry, h] <;> omega

/-- The handler response, unfolded through the loop characterization. -/
theorem lambda_handler_eq (now : String)
    (publish : SnsMessage → List (String × String) → Except String String)
    (records : List ConsRecord) :
    lambda_handler now publish records
      = { statusCode := 200
          processed_count := (records.filterMap (succEntry now publish)).length
          failed_count := (records.filterMap (failEntry now publish)).length
          processed_messages := records.filterMap (succEntry now publish)
          failed_messages := records.filterMap (failEntry now publish) } := by
  unfold lambda_handler
  rw [foldl_loopStep]
  simp

/-- The SNS message id a record resolves to, when its processing
succeeds (arbitrary when it fails). -/
def snsIdOf (now : String)
    (publish : SnsMessage → List (String × String) → Except String String)
    (r : ConsRecord) : String :=
  match processRecord now publish r with
  | Except.ok s => s
  | Except.error e => e

/-- When every record succeeds, the succeeded entries are one per record,
in order, pairing each record id with its SNS message id. -/
theorem filterMap_succ_of_all_ok (now : String)
    (publish : SnsMessage → List (String × String) → Except String String) :
    ∀ (l : List ConsRecord),
      (∀ r ∈ l, ∃ s, processRecord now publish r = Except.ok s) →
      l.filterMap (succEntry now publish)
        = l.map (fun r => mkProcessedEntry r.messageId (snsIdOf now publish r)) := by
  intro l hl
  induction l with
  | nil => rfl
  | cons r rs ih =>
      obtain ⟨s, hs⟩ := hl r (List.mem_cons_self r rs)
      simp only [List.filterMap_cons, List.map_cons]
      rw [show succEntry now publish r
            = some (mkProcessedEntry r.messageId (snsIdOf now publish r)) by
          simp [succEntry, snsIdOf, hs]]
      rw [ih (fun x hx => hl x (List.mem_cons_of_mem r hx))]

/-- When every record succeeds, no failed entries are produced. -/
theorem filterMap_fail_of_all_ok (now : String)
    (publish : SnsMessage → List (String × String) → Except String String) :
    ∀ (l : List ConsRecord),
      (∀ r ∈ l, ∃ s, processRecord now publish r = Except.ok s) →
      l.filterMap (failEntry now publish) = [] := by
  intro l hl
  induction l with
  | nil => rfl
  | cons r rs ih =>
      obtain ⟨s, hs⟩ := hl r (List.mem_cons_self r rs)
      simp only [List.filterMap_cons]
      rw [show failEntry now publish r = none by simp [failEntry, hs]]
      exact ih (fun x hx => hl x (List.mem_cons_of_mem r hx))

/-- Running `process_message` on a decoded object body never raises and yields the
explicit metadata-wrapped record. -/
theorem process_message_obj (fields : List (String × JVal)) (mid now : String) :
    process_message (JVal.obj fields) mid now
      = Except.ok
          ((([("original_message", JVal.obj fields), ("processed_at", JVal.str now),
              ("message_id", JVal.str mid),
              ("processor", JVal.str "consumer-lambda"), ("version", JVal.str "1.0")]
             ++ (match fields.lookup "priority" with
                 | some vp => [("priority_level", vp)]
                 | none => []))
            ++ (match fields.lookup "category" with
                | some vc => [("category", vc)]
                | none => []))
           ++ [("processing_status", JVal.str "completed")]) := by
  simp [process_message, addOptField_obj]

end Consumer

/-!  ## Claims about the producer  -/

/-- C1: for every producer invocation whose body decodes to a mapping
containing the key `message` and whose queue submission succeeds, the
handler returns statusCode 200 and the submitted envelope contains exactly
the keys `message`, `timestamp`, `request_id`, `source`, plus `priority`
and/or `category` exactly when those keys were present in the decoded
body; absent optional keys are omitted entirely. -/
theorem producer_success_envelope_exact_keys
    (fields : List (String × JVal)) (v : JVal) (rid ts : String)
    (send : List (String × JVal) → Except String String)
    (hmsg : fields.lookup "message" = some v)
    (hsend : ∀ env, ∃ m, send env = Except.ok m) :
    ∃ mid env,
      Producer.lambda_handler (BodyParse.parsed (JVal.obj fields)) rid ts send
        = ({ statusCode := 200
             headers := corsHeaders
             body := [("message", JVal.str "Message sent successfully"),
                      ("message_id", JVal.str mid),
                      ("timestamp", JVal.str ts)] },
           some env)
      ∧ env.map Prod.fst
          = ["message", "timestamp", "request_id", "source"]
            ++ (if (fields.lookup "priority").isSome then ["priority"] else [])
            ++ (if (fields.lookup "category").isSome then ["category"] else [])
      ∧ env.lookup "message" = some v := by
  obtain ⟨mid, hmid⟩ := hsend (Producer.envelope fields v rid ts)
  refine ⟨mid, Producer.envelope fields v rid ts, ?_, ?_, ?_⟩
  · simp only [Producer.lambda_handler,
      Producer.handlerCore_obj fields v rid ts send hmsg, hmid]
  · simp only [Producer.envelope, List.map_append]
    cases hp : fields.lookup "priority" <;>
      cases hc : fields.lookup "category" <;> simp
  · simp [Producer.envelope, List.lookup]

/-- C1 witness: a concrete body with `message` and `priority` but no
`category`. -/
theorem producer_success_envelope_exact_keys_witness :
    ∃ mid env,
      Producer.lambda_handler
          (BodyParse.parsed
            (JVal.obj [("message", JVal.str "hello"), ("priority", JVal.num 2)]))
          "req-1" "2024-01-01T00:00:00" (fun _ => Except.ok "queue-msg-1")
        = ({ statusCode := 200
             headers := corsHeaders
             body := [("message", JVal.str "Message sent successfully"),
                      ("message_id", JVal.str mid),
                      ("timestamp", JVal.str "2024-01-01T00:00:00")] },
           some env)
      ∧ env.map Prod.fst
          = ["message", "timestamp", "request_id", "source"]
            ++ (if (([("message", JVal.str "hello"),
                      ("priority", JVal.num 2)].lookup "priority").isSome)
                then ["priority"] else [])
            ++ (if (([("message", JVal.str "hello"),
                      ("priority", JVal.num 2)].lookup "category").isSome)
                then ["category"] else [])
      ∧ env.lookup "message" = some (JVal.str "hello") :=
  producer_success_envelope_exact_keys
    [("message", JVal.str "hello"), ("priority", JVal.num 2)]
    (JVal.str "hello") "req-1" "2024-01-01T00:00:00"
    (fun _ => Except.ok "queue-msg-1") rfl (fun _ => ⟨"queue-msg-1", rfl⟩)

/-- C2: for every producer invocation whose body is absent (treated as the
empty mapping, not an error) or decodes to a mapping without the key
`message`, the handler returns statusCode 400 with error text
`Missing required field: message`. -/
theorem producer_missing_message_field (parse : BodyParse) (rid ts : String)
    (send : List (String × JVal) → Except String String)
    (h : parse = BodyParse.absent
         ∨ ∃ fields, parse = BodyParse.parsed (JVal.obj fields)
             ∧ fields.lookup "message" = none) :
    Producer.lambda_handler parse rid ts send
      = (errorResponse 400 "Missing required field: message", none) := by
  rcases h with h | ⟨fields, h, hmsg⟩ <;> subst h
  · rfl
  · simp [Producer.lambda_handler, Producer.handlerCore, pyContains, hmsg]

/-- C2 witness: the absent-body case. -/
theorem producer_missing_message_field_witness :
    Producer.lambda_handler BodyParse.absent "req-2" "2024-01-01T00:00:01"
        (fun _ => Except.ok "queue-msg-2")
      = (errorResponse 400 "Missing required field: message", none) :=
  producer_missing_message_field BodyParse.absent "req-2" "2024-01-01T00:00:01"
    (fun _ => Except.ok "queue-msg-2") (Or.inl rfl)

/-- C7: for every producer invocation whose body is present but fails to
decode as JSON, the handler returns statusCode 400 with error text
`Invalid JSON in request body`. -/
theorem producer_invalid_json (rid ts : String)
    (send : List (String × JVal) → Except String String) :
    Producer.lambda_handler BodyParse.malformed rid ts send
      = (errorResponse 400 "Invalid JSON in request body", none) := rfl

/-- C4: for every producer invocation that passes validation but whose
queue submission raises — with any exception message — the handler returns
statusCode 500 with error text exactly `Internal server error`. -/
theorem producer_submission_error_is_generic_500
    (fields : List (String × JVal)) (v : JVal) (rid ts : String)
    (send : List (String × JVal) → Except String String)
    (errMsg : List (String × JVal) → String)
    (hmsg : fields.lookup "message" = some v)
    (hsend : ∀ env, send env = Except.error (errMsg env)) :
    Producer.lambda_handler (BodyParse.parsed (JVal.obj fields)) rid ts send
      = (errorResponse 500 "Internal server error", none) := by
  simp only [Producer.lambda_handler,
    Producer.handlerCore_obj fields v rid ts send hmsg, hsend]

/-- C4 witness: a valid body whose submission fails with a detailed
exception message that does not leak into the response. -/
theorem producer_submission_error_is_generic_500_witness :
    Producer.lambda_handler
        (BodyParse.parsed (JVal.obj [("message", JVal.str "hello")]))
        "req-3" "2024-01-01T00:00:02"
        (fun _ => Except.error "An error occurred (AccessDenied) calling SendMessage")
      = (errorResponse 500 "Internal server error", none) :=
  producer_submission_error_is_generic_500
    [("message", JVal.str "hello")] (JVal.str "hello")
    "req-3" "2024-01-01T00:00:02"
    (fun _ => Except.error "An error occurred (AccessDenied) calling SendMessage")
    (fun _ => "An error occurred (AccessDenied) calling SendMessage")
    rfl (fun _ => rfl)

/-!  ## Claims about the consumer  -/

/-- C5: for every consumer batch, each record ends in exactly one of the
two result lists, `processed_count + failed_count` equals the number of
records, and the batch call itself succeeds (statusCode 200) regardless of
individual item failures. -/
theorem consumer_each_record_exactly_one_list (now : String)
    (publish : SnsMessage → List (String × String) → Except String String)
    (records : List ConsRecord) :
    (Consumer.lambda_handler now publish records).statusCode = 200
    ∧ (Consumer.lambda_handler now publish records).processed_count
        + (Consumer.lambda_handler now publish records).failed_count
        = records.length
    ∧ (Consumer.lambda_handler now publish records).processed_messages
        = records.filterMap (Consumer.succEntry now publish)
    ∧ (Consumer.lambda_handler now publish records).failed_messages
        = records.filterMap (Consumer.failEntry now publish)
    ∧ ∀ r ∈ records,
        (∃ s, Consumer.processRecord now publish r = Except.ok s
            ∧ Consumer.mkProcessedEntry r.messageId s
                ∈ (Consumer.lambda_handler now publish records).processed_messages
            ∧ Consumer.failEntry now publish r = none)
      ∨ (∃ e, Consumer.processRecord now publish r = Except.error e
            ∧ Consumer.mkFailedEntry r.messageId e
                ∈ (Consumer.lambda_handler now publish records).failed_messages
            ∧ Consumer.succEntry now publish r = none) := by
  rw [Consumer.lambda_handler_eq]
  refine ⟨rfl, Consumer.filterMap_entries_length now publish records, rfl, rfl, ?_⟩
  intro r hr
  cases hpr : Consumer.processRecord now publish r with
  | ok s =>
      exact Or.inl ⟨s, rfl,
        List.mem_filterMap.mpr ⟨r, hr, by simp [Consumer.succEntry, hpr]⟩,
        by simp [Consumer.failEntry, hpr]⟩
  | error e =>
      exact Or.inr ⟨e, rfl,
        List.mem_filterMap.mpr ⟨r, hr, by simp [Consumer.failEntry, hpr]⟩,
        by simp [Consumer.succEntry, hpr]⟩

/-- C5 witness: a two-record batch with one success and one decode
failure. -/
theorem consumer_each_record_exactly_one_list_witness :
    (Consumer.lambda_handler "2024-01-01T00:00:03" (fun _ _ => Except.ok "sns-1")
        [{ messageId := "m1",
           body := Except.ok (JVal.obj [("message", JVal.str "hi")]) },
         { messageId := "m2", body := Except.error "Expecting value" }]).processed_count
      + (Consumer.lambda_handler "2024-01-01T00:00:03" (fun _ _ => Except.ok "sns-1")
          [{ messageId := "m1",
             body := Except.ok (JVal.obj [("message", JVal.str "hi")]) },
           { messageId := "m2", body := Except.error "Expecting value" }]).failed_count
      = 2 :=
  (consumer_each_record_exactly_one_list "2024-01-01T00:00:03"
    (fun _ _ => Except.ok "sns-1")
    [{ messageId := "m1",
       body := Except.ok (JVal.obj [("message", JVal.str "hi")]) },
     { messageId := "m2", body := Except.error "Expecting value" }]).2.1

/-- C6: for every consumer batch in which every record decodes and
publishes successfully, the response tallies `processed_count = N` and
`failed_count = 0`, and the succeeded entries pair each record id with its
SNS message id under status `success`, one per record in order. -/
theorem consumer_all_success_tally (now : String)
    (publish : SnsMessage → List (String × String) → Except String String)
    (records : List ConsRecord)
    (h : ∀ r ∈ records, ∃ s, Consumer.processRecord now publish r = Except.ok s) :
    (Consumer.lambda_handler now publish records).processed_count = records.length
    ∧ (Consumer.lambda_handler now publish records).failed_count = 0
    ∧ (Consumer.lambda_handler now publish records).processed_messages
        = records.map (fun r =>
            Consumer.mkProcessedEntry r.messageId (Consumer.snsIdOf now publish r)) := by
  rw [Consumer.lambda_handler_eq]
  refine ⟨?_, ?_, ?_⟩
  · show (records.filterMap (Consumer.succEntry now publish)).length = records.length
    rw [Consumer.filterMap_succ_of_all_ok now publish records h, List.length_map]
  · show (records.filterMap (Consumer.failEntry now publish)).length = 0
    rw [Consumer.filterMap_fail_of_all_ok now publish records h]
    rfl
  · exact Consumer.filterMap_succ_of_all_ok now publish records h

/-- C6 witness: a concrete two-record batch where both records succeed. -/
theorem consumer_all_success_tally_witness :
    (Consumer.lambda_handler "2024-01-01T00:00:04" (fun _ _ => Except.ok "sns-2")
        [{ messageId := "m1",
           body := Except.ok (JVal.obj [("message", JVal.str "a")]) },
         { messageId := "m2",
           body := Except.ok (JVal.obj [("message", JVal.str "b")]) }]).processed_count
      = 2
    ∧ (Consumer.lambda_handler "2024-01-01T00:00:04" (fun _ _ => Except.ok "sns-2")
        [{ messageId := "m1",
           body := Except.ok (JVal.obj [("message", JVal.str "a")]) },
         { messageId := "m2",
           body := Except.ok (JVal.obj [("message", JVal.str "b")]) }]).failed_count
      = 0 := by
  have h := consumer_all_success_tally "2024-01-01T00:00:04"
    (fun _ _ => Except.ok "sns-2")
    [{ messageId := "m1",
       body := Except.ok (JVal.obj [("message", JVal.str "a")]) },
     { messageId := "m2",
       body := Except.ok (JVal.obj [("message", JVal.str "b")]) }]
    (by
      intro r hr
      simp only [List.mem_cons, List.not_mem_nil, or_false] at hr
      rcases hr with hr | hr <;> subst hr <;> exact ⟨"sns-2", rfl⟩)
  exact ⟨h.1, h.2.1⟩

/-- C3: for every consumer batch in which record `k` has a non-decodable
body, record `k` appears in `failed_messages` carrying the decode error
string, every other (successfully processed) record still appears in
`processed_messages`, and the batch still returns 200. -/
theorem consumer_decode_failure_isolated (now : String)
    (publish : SnsMessage → List (String × String) → Except String String)
    (records : List ConsRecord) (k : Nat) (hk : k < records.length) (e : String)
    (hdecode : (records[k]).body = Except.error e)
    (hothers : ∀ (j : Nat) (hj : j < records.length), j ≠ k →
        ∃ s, Consumer.processRecord now publish records[j] = Except.ok s) :
    (Consumer.lambda_handler now publish records).statusCode = 200
    ∧ Consumer.mkFailedEntry (records[k]).messageId e
        ∈ (Consumer.lambda_handler now publish records).failed_messages
    ∧ ∀ (j : Nat) (hj : j < records.length), j ≠ k →
        ∃ s, Consumer.processRecord now publish records[j] = Except.ok s
          ∧ Consumer.mkProcessedEntry (records[j]).messageId s
              ∈ (Consumer.lambda_handler now publish records).processed_messages := by
  rw [Consumer.lambda_handler_eq]
  have hfail : Consumer.processRecord now publish records[k] = Except.error e := by
    unfold Consumer.processRecord
    rw [hdecode]
  refine ⟨rfl, ?_, ?_⟩
  · exact List.mem_filterMap.mpr ⟨records[k],
      List.getElem_mem hk, by simp [Consumer.failEntry, hfail]⟩
  · intro j hj hne
    obtain ⟨s, hs⟩ := hothers j hj hne
    exact ⟨s, hs, List.mem_filterMap.mpr ⟨records[j],
      List.getElem_mem hj, by simp [Consumer.succEntry, hs]⟩⟩

/-- C3 witness: a two-record batch whose second record has a non-decodable
body; the first is still processed. -/
theorem consumer_decode_failure_isolated_witness :
    (Consumer.lambda_handler "2024-01-01T00:00:05" (fun _ _ => Except.ok "sns-3")
        [{ messageId := "m1",
           body := Except.ok (JVal.obj [("message", JVal.str "ok")]) },
         { messageId := "m2",
           body := Except.error "Expecting value: line 1 column 1 (char 0)" }]).statusCode
      = 200
    ∧ Consumer.mkFailedEntry "m2" "Expecting value: line 1 column 1 (char 0)"
        ∈ (Consumer.lambda_handler "2024-01-01T00:00:05" (fun _ _ => Except.ok "sns-3")
            [{ messageId := "m1",
               body := Except.ok (JVal.obj [("message", JVal.str "ok")]) },
             { messageId := "m2",
               body := Except.error "Expecting value: line 1 column 1 (char 0)" }]).failed_messages := by
  have h := consumer_decode_failure_isolated "2024-01-01T00:00:05"
    (fun _ _ => Except.ok "sns-3")
    [{ messageId := "m1",
       body := Except.ok (JVal.obj [("message", JVal.str "ok")]) },
     { messageId := "m2",
       body := Except.error "Expecting value: line 1 column 1 (char 0)" }]
    1 (by decide) "Expecting value: line 1 column 1 (char 0)" rfl
    (by
      intro j hj hne
      match j with
      | 0 => exact ⟨"sns-3", rfl⟩
      | 1 => exact absurd rfl hne
      | n + 2 => exact absurd hj (by simp))
  exact ⟨h.1, h.2.1⟩

/-- C9: for every consumer item that decodes to a mapping, the processed
record carries `message_id` equal to the queue-assigned identifier of the
item, the constant `processor` and `version` tags, `processing_status`
equal to `completed`, and `priority_level` (resp. `category`) exactly when
the decoded body contains `priority` (resp. `category`), copied from it. -/
theorem consumer_processed_record_metadata (r : ConsRecord)
    (fields : List (String × JVal)) (now : String)
    (hbody : r.body = Except.ok (JVal.obj fields)) :
    ∃ rec,
      Consumer.process_message (JVal.obj fields) r.messageId now = Except.ok rec
      ∧ rec.lookup "message_id" = some (JVal.str r.messageId)
      ∧ rec.lookup "processor" = some (JVal.str "consumer-lambda")
      ∧ rec.lookup "version" = some (JVal.str "1.0")
      ∧ rec.lookup "processing_status" = some (JVal.str "completed")
      ∧ (rec.lookup "priority_level").isSome = (fields.lookup "priority").isSome
      ∧ (rec.lookup "category").isSome = (fields.lookup "category").isSome
      ∧ (∀ w, fields.lookup "priority" = some w →
          rec.lookup "priority_level" = some w)
      ∧ (∀ w, fields.lookup "category" = some w →
          rec.lookup "category" = some w) := by
  refine ⟨_, Consumer.process_message_obj fields r.messageId now, ?_⟩
  cases hp : fields.lookup "priority" <;> cases hc : fields.lookup "category" <;>
    simp [List.lookup, hp, hc]

/-- C9 witness: an item carrying `message` and `priority` but no
`category`. -/
theorem consumer_processed_record_metadata_witness :
    ∃ rec,
      Consumer.process_message
          (JVal.obj [("message", JVal.str "x"), ("priority", JVal.num 7)])
          "m9" "2024-01-01T00:00:06"
        = Except.ok rec
      ∧ rec.lookup "message_id" = some (JVal.str "m9")
      ∧ rec.lookup "priority_level" = some (JVal.num 7) := by
  obtain ⟨rec, h1, h2, _, _, _, _, _, h8, _⟩ :=
    consumer_processed_record_metadata
      { messageId := "m9",
        body := Except.ok
          (JVal.obj [("message", JVal.str "x"), ("priority", JVal.num 7)]) }
      [("message", JVal.str "x"), ("priority", JVal.num 7)]
      "2024-01-01T00:00:06" rfl
  exact ⟨rec, h1, h2, h8 (JVal.num 7) rfl⟩

/-- C10: a consumer record whose body decodes to a mapping whose `message`
value does not support slicing (e.g. a number) is recorded in
`failed_messages` rather than `processed_messages`: the truncated sms
rendering raises and the per-item boundary captures it. -/
theorem consumer_nonsliceable_message_recorded_failed (now : String)
    (publish : SnsMessage → List (String × String) → Except String String)
    (records : List ConsRecord) (k : Nat) (hk : k < records.length)
    (fields : List (String × JVal)) (v : JVal)
    (hbody : (records[k]).body = Except.ok (JVal.obj fields))
    (hmsg : fields.lookup "message" = some v)
    (hns : supportsSlice v = false) :
    ∃ e, Consumer.processRecord now publish records[k] = Except.error e
      ∧ Consumer.mkFailedEntry (records[k]).messageId e
          ∈ (Consumer.lambda_handler now publish records).failed_messages
      ∧ Consumer.succEntry now publish records[k] = none := by
  obtain ⟨e, he⟩ : ∃ e, pySlice50 v = Except.error e := by
    cases v <;> first
      | exact ⟨_, rfl⟩
      | simp [supportsSlice] at hns
  have hproc : Consumer.processRecord now publish records[k] = Except.error e := by
    unfold Consumer.processRecord
    rw [hbody]
    simp [Consumer.process_message_obj, Consumer.publish_to_sns,
      Consumer.build_sns_message, pyGet, List.lookup, hmsg, he]
  refine ⟨e, hproc, ?_, ?_⟩
  · rw [Consumer.lambda_handler_eq]
    exact List.mem_filterMap.mpr ⟨records[k], List.getElem_mem hk,
      by simp [Consumer.failEntry, hproc]⟩
  · simp [Consumer.succEntry, hproc]

/-- C10 witness: a single-record batch whose `message` value is the number
5. -/
theorem consumer_nonsliceable_message_recorded_failed_witness :
    ∃ e,
      Consumer.processRecord "2024-01-01T00:00:07" (fun _ _ => Except.ok "sns-4")
          ([{ messageId := "m1",
              body := Except.ok (JVal.obj [("message", JVal.num 5)]) }] :
            List ConsRecord)[0]
        = Except.error e
      ∧ Consumer.mkFailedEntry
          (([{ messageId := "m1",
               body := Except.ok (JVal.obj [("message", JVal.num 5)]) }] :
              List ConsRecord)[0]).messageId e
          ∈ (Consumer.lambda_handler "2024-01-01T00:00:07"
              (fun _ _ => Except.ok "sns-4")
              [{ messageId := "m1",
                 body := Except.ok (JVal.obj [("message", JVal.num 5)]) }]).failed_messages
      ∧ Consumer.succEntry "2024-01-01T00:00:07" (fun _ _ => Except.ok "sns-4")
          ([{ messageId := "m1",
              body := Except.ok (JVal.obj [("message", JVal.num 5)]) }] :
            List ConsRecord)[0]
        = none :=
  consumer_nonsliceable_message_recorded_failed "2024-01-01T00:00:07"
    (fun _ _ => Except.ok "sns-4")
    [{ messageId := "m1", body := Except.ok (JVal.obj [("message", JVal.num 5)]) }]
    0 (by decide) [("message", JVal.num 5)] (JVal.num 5) rfl rfl rfl

set_option maxRecDepth 8000 in
/-- C8: for a processed record whose original message is
`(message, Test message)`, the fan-out email representation contains the
substring `Test message` and the sms representation contains the first 50
characters of the message value followed by the ellipsis marker. -/
theorem consumer_sns_variants_for_test_message (mid now : String) :
    ∃ rec m,
      Consumer.process_message
          (JVal.obj [("message", JVal.str "Test message")]) mid now
        = Except.ok rec
      ∧ Consumer.build_sns_message rec = Except.ok m
      ∧ (∃ a b, m.email = a ++ "Test message" ++ b)
      ∧ (∃ a b, m.sms = a ++ ("Test message".take 50) ++ "..." ++ b) := by
  refine
    ⟨[("original_message", JVal.obj [("message", JVal.str "Test message")]),
      ("processed_at", JVal.str now), ("message_id", JVal.str mid),
      ("processor", JVal.str "consumer-lambda"), ("version", JVal.str "1.0"),
      ("processing_status", JVal.str "completed")],
     { defaultForm :=
         [("original_message", JVal.obj [("message", JVal.str "Test message")]),
          ("processed_at", JVal.str now), ("message_id", JVal.str mid),
          ("processor", JVal.str "consumer-lambda"), ("version", JVal.str "1.0"),
          ("processing_status", JVal.str "completed")]
       email := "Message processed: Test message"
       sms := "Processed: Test message..." },
     rfl, rfl, ⟨"Message processed: ", "", by rfl⟩,
     ⟨"Processed: ", "", by rfl⟩⟩

end EventApp
